import Mathlib

/-!
Verification development for the k8s-deployment-scaler repository.

The repository is a small Go HTTP service (cmd/k8s-deployment-scaler/main.go,
internal/handlers, internal/server) that serves read queries against an
informer cache of Deployment objects and writes replica-count changes through
the Kubernetes UpdateScale API.  The definitions below embed the handler
logic and the startup sequence; the informer's per-key event-apply discipline
is not part of the repository's own code (only the informer setup in main.go
is), so it is modelled from the spec where noted.
-/

namespace Scaler

/-- A cached Deployment object as held by the informer cache (the Mirror):
composite key (namespace, name) plus the desired replica count.
Mirrors `appsv1.Deployment` restricted to the fields the handlers read
(`deployment.Namespace`, `deployment.Name`, `*deployment.Spec.Replicas`). -/
structure Deployment where
  namespace' : String
  name : String
  replicas : Int
deriving DecidableEq, Repr

/-- The informer cache contents: a list of cached Deployment objects. -/
def Mirror : Type := List Deployment

/-- Two cached objects have distinct (namespace, name) keys. -/
abbrev keyNe (a b : Deployment) : Prop :=
  (a.namespace', a.name) ≠ (b.namespace', b.name)

/-- `deploymentLister.Deployments(namespace).Get(name)`: point lookup in the
cache by (namespace, name); absent keys surface as a not-found condition,
here `none`. -/
def listerGet (m : List Deployment) (ns name : String) : Option Deployment :=
  m.find? (fun d => d.namespace' == ns && d.name == name)

/-- `getDeploymentFromCache` (main.go:215-225, internal/handlers/utils.go:21-31):
returns `(nil, false)` on any lister error (not-found, or a logged other
error) and `(deployment, true)` on success.  The returned pair never carries
an error value: synchronization errors cannot escape to the caller. -/
def getDeploymentFromCache (ns name : String) (m : List Deployment) :
    Option Deployment × Bool :=
  match listerGet m ns name with
  | none => (none, false)
  | some d => (some d, true)

/-- JSON error envelope `apiError{Message, Code}` (main.go:191-194,
internal/handlers/utils.go:15-18). -/
structure ApiError where
  message : String
  code : Nat
deriving DecidableEq, Repr

/-- Outcome of the POST /replica-count handler: either a JSON error response
or the success body `{"replicaCount": n}`. -/
inductive PostResult where
  | ok (replicaCount : Int)
  | err (e : ApiError)
deriving DecidableEq, Repr

/-- One invocation of `UpdateScale` recorded against the Remote Object Store:
the namespace, deployment name and requested replica count. -/
structure ScaleCall where
  namespace' : String
  name : String
  replicas : Int
deriving DecidableEq, Repr

/-- Result of `clientset.AppsV1().Deployments(ns).UpdateScale(...)` as the
handler observes it: success, or an error that either is or is not
`errors.IsNotFound` (conflict, authorization, unavailability and timeout all
fall in the `err false` case, since the Go code only tests `IsNotFound`). -/
inductive UpdateScaleResult where
  | ok
  | err (isNotFound : Bool)
deriving DecidableEq, Repr

/-- `handlePostReplicaCount` (main.go:259-333) / `PostReplicaCount`
(internal/handlers, part_006:71-139).  Inputs: the two query parameters
(missing parameters read as `""`, as `r.URL.Query().Get` does), the decoded
request body (`none` when `json.Decode` fails, `some replicas` otherwise),
and the store's `UpdateScale` behaviour.  Output: the HTTP-level result
together with the list of `UpdateScale` calls performed. -/
def handlePostReplicaCount (ns deploymentName : String) (body : Option Int)
    (updateScale : String → String → Int → UpdateScaleResult) :
    PostResult × List ScaleCall :=
  if ns = "" ∨ deploymentName = "" then
    (.err ⟨"Missing query parameters", 400⟩, [])
  else
    match body with
    | none => (.err ⟨"Invalid request body", 400⟩, [])
    | some replicas =>
      if replicas < 0 then
        (.err ⟨"Replica count must be non-negative", 400⟩, [])
      else
        match updateScale ns deploymentName replicas with
        | .ok => (.ok replicas, [⟨ns, deploymentName, replicas⟩])
        | .err true => (.err ⟨"Deployment not found", 404⟩, [⟨ns, deploymentName, replicas⟩])
        | .err false =>
          (.err ⟨"Failed to update deployment scale", 500⟩, [⟨ns, deploymentName, replicas⟩])

/-- The POST /replica-count request step seen together with the informer
cache: in `setupHandlers` (main.go:177-188, internal/server/server.go) the
POST route is wired without the deployment lister, so the handler has no
access to the Mirror; the cache component of the state passes through the
request untouched. -/
def postStep (mirror : List Deployment) (ns deploymentName : String)
    (body : Option Int)
    (updateScale : String → String → Int → UpdateScaleResult) :
    PostResult × List ScaleCall × List Deployment :=
  let r := handlePostReplicaCount ns deploymentName body updateScale
  (r.1, r.2, mirror)

/-- Outcome of the GET /healthz handler. -/
inductive HealthResult where
  | ok (status : String)
  | err (e : ApiError)
deriving DecidableEq, Repr

/-- `healthCheck` (main.go:197-212) / `HealthCheck` (part_006:28-43): calls
`clientset.Discovery().ServerVersion()` and reports 503 when that
connectivity check fails, `{"status":"OK"}` otherwise.  It consults nothing
else — in particular not the informer's sync state. -/
def healthCheck (serverVersionOk : Bool) : HealthResult :=
  if serverVersionOk then .ok "OK" else .err ⟨"Kubernetes connectivity check failed", 503⟩

/-- Whether GET /healthz reports ready, as a function of the process state:
`synced` is the informer sync-barrier flag (present here so the spec's
readiness claim can be stated against it) and `serverVersionOk` the outcome
of the connectivity check.  As in the source, the handler ignores `synced`. -/
def healthzReady (synced serverVersionOk : Bool) : Bool :=
  match healthCheck serverVersionOk with
  | .ok _ => true
  | .err _ => false

/-- The observable milestones of `main` (main.go:37-100), in program order. -/
inductive MainStep where
  | buildConfig
  | createClient
  | startInformers
  | waitForCacheSync
  | fatalExit (msg : String)
  | setupTLSStep
  | serveRequests
  | shutdownStep
deriving DecidableEq, Repr

/-- The sequence of milestones `main` passes through, as a function of which
startup operations succeed: kubeconfig build, client construction, the
informer cache sync (`cache.WaitForCacheSync`), and TLS setup.  `log.Fatalf`
terminates the process, so a trace ends at the first `fatalExit`.
`serveRequests` stands for `server.ListenAndServeTLS` beginning to accept
requests (main.go:84-89), which the code only reaches after the sync
barrier. -/
def mainTrace (configOk clientOk syncOk tlsOk : Bool) : List MainStep :=
  MainStep.buildConfig ::
    (if configOk = false then [MainStep.fatalExit "Error building kubeconfig"]
     else MainStep.createClient ::
       (if clientOk = false then [MainStep.fatalExit "Error creating Kubernetes client"]
        else MainStep.startInformers :: MainStep.waitForCacheSync ::
          (if syncOk = false then [MainStep.fatalExit "Failed to sync deployment informer"]
           else MainStep.setupTLSStep ::
             (if tlsOk = false then [MainStep.fatalExit "Failed to set up TLS config"]
              else [MainStep.serveRequests, MainStep.shutdownStep]))))

/-- `a` occurs in `l` strictly before `b` does. -/
abbrev precedesIn (l : List MainStep) (a b : MainStep) : Prop :=
  a ∈ l ∧ b ∈ l ∧ l.indexOf a < l.indexOf b

/-- The JSON response of GET /deployments: the `deployments` field is always
present (the Go code always builds the map with that key, over a slice
created with `make`, so an empty result serializes as `[]`, never as an
absent field). -/
structure ListResponse where
  deployments : List String
deriving DecidableEq, Repr

/-- `deploymentLister.Deployments(namespace).List(labels.Everything())`: all
cached deployments in the namespace, or in all namespaces when the filter is
the empty string (client-go treats `""` as NamespaceAll). -/
def listerList (m : List Deployment) (ns : String) : List Deployment :=
  if ns = "" then m else m.filter (fun d => decide (d.namespace' = ns))

/-- `listDeployments` (main.go:336-361) / `ListDeployments` (part_006:142-167):
lists the matching cached deployments and formats each one as
`fmt.Sprintf("%s/%s", deployment.Namespace, deployment.Name)`. -/
def listDeployments (m : List Deployment) (ns : String) : ListResponse :=
  { deployments := (listerList m ns).map (fun d => d.namespace' ++ "/" ++ d.name) }

/-- Modelled from the spec: the per-key snapshot held by the Mirror for one
(namespace, name) key — the object's resource version and its payload (the
replica count stands for the opaque payload).  The Watch Synchronizer's
event-apply discipline is not part of this repository's source (main.go only
wires up the client-go informer, main.go:49-63), so the snapshot and its
apply function follow the spec's `applyEvent` description. -/
structure ObjSnapshot where
  resourceVersion : Nat
  replicas : Int
deriving DecidableEq, Repr

/-- Modelled from the spec: `applyEvent` restricted to Added/Modified events
for a single key — "insert-or-replace the Mirror entry if the incoming
resource version is not older than any existing entry's version (ignore
otherwise)".  The per-key Mirror cell is `none` when the key is absent. -/
def applyAM (m : Option ObjSnapshot) (e : ObjSnapshot) : Option ObjSnapshot :=
  match m with
  | none => some e
  | some cur => if cur.resourceVersion ≤ e.resourceVersion then some e else some cur

/-- The resource version currently stored for the key (0 when absent). -/
def storedVer (m : Option ObjSnapshot) : Nat :=
  match m with
  | none => 0
  | some cur => cur.resourceVersion

lemma storedVer_le_applyAM (m : Option ObjSnapshot) (e : ObjSnapshot) :
    storedVer m ≤ storedVer (applyAM m e) := by
  cases m with
  | none => simp [storedVer, applyAM]
  | some cur =>
    by_cases h : cur.resourceVersion ≤ e.resourceVersion <;>
      simp [storedVer, applyAM, h]

lemma storedVer_le_foldl (l : List ObjSnapshot) (m : Option ObjSnapshot) :
    storedVer m ≤ storedVer (List.foldl applyAM m l) := by
  induction l generalizing m with
  | nil => simp
  | cons e t ih =>
    rw [List.foldl_cons]
    exact le_trans (storedVer_le_applyAM m e) (ih (applyAM m e))

lemma applyAM_comm (e₁ e₂ : ObjSnapshot)
    (h : e₁.resourceVersion ≠ e₂.resourceVersion) (m : Option ObjSnapshot) :
    applyAM (applyAM m e₁) e₂ = applyAM (applyAM m e₂) e₁ := by
  cases m with
  | none =>
    by_cases h1 : e₁.resourceVersion ≤ e₂.resourceVersion <;>
      simp [applyAM, h1] <;> split_ifs <;> first | rfl | omega
  | some cur =>
    by_cases h1 : cur.resourceVersion ≤ e₁.resourceVersion <;>
    by_cases h2 : cur.resourceVersion ≤ e₂.resourceVersion <;>
    by_cases h3 : e₁.resourceVersion ≤ e₂.resourceVersion <;>
      simp [applyAM, h1, h2, h3] <;>
      first
        | rfl
        | (exfalso; omega)
        | (split_ifs <;> first | rfl | (exfalso; omega))

lemma foldl_applyAM_perm (l l' : List ObjSnapshot)
    (hnd : l.Pairwise (fun a b => a.resourceVersion ≠ b.resourceVersion))
    (hp : l.Perm l') (m : Option ObjSnapshot) :
    List.foldl applyAM m l = List.foldl applyAM m l' := by
  refine hp.foldl_eq' ?_ m
  intro x hx y hy z
  by_cases hxy : x = y
  · subst hxy; rfl
  · exact applyAM_comm x y
      (List.Pairwise.forall (fun _ _ hne => Ne.symm hne) hnd hx hy hxy) z

lemma listerGet_eq_none_iff (m : List Deployment) (ns name : String) :
    listerGet m ns name = none ↔ ∀ d ∈ m, ¬(d.namespace' = ns ∧ d.name = name) := by
  simp [listerGet, List.find?_eq_none]

lemma listerGet_some_spec {m : List Deployment} {ns name : String} {d : Deployment}
    (h : listerGet m ns name = some d) :
    d ∈ m ∧ d.namespace' = ns ∧ d.name = name := by
  have hmem := List.mem_of_find?_eq_some h
  have hp := List.find?_some h
  simp only [Bool.and_eq_true, beq_iff_eq] at hp
  exact ⟨hmem, hp.1, hp.2⟩

/-- C1: For every sequence of Added/Modified events applied to a single key,
the resource version stored in the Mirror for that key never decreases; an
event carrying a resource version older than the stored one leaves the entry
unchanged; and when the resource versions in a fixed multiset of events are
pairwise distinct, every permutation of their application order yields the
same final Mirror state for the key. -/
theorem c1_mirror_version_monotone_and_permutation_invariant :
    (∀ (m : Option ObjSnapshot) (l : List ObjSnapshot),
        storedVer m ≤ storedVer (List.foldl applyAM m l))
    ∧ (∀ (cur e : ObjSnapshot), e.resourceVersion < cur.resourceVersion →
        applyAM (some cur) e = some cur)
    ∧ (∀ (l l' : List ObjSnapshot),
        l.Pairwise (fun a b => a.resourceVersion ≠ b.resourceVersion) →
        l.Perm l' →
        List.foldl applyAM none l = List.foldl applyAM none l') := by
  refine ⟨fun m l => storedVer_le_foldl l m, fun cur e h => ?_,
    fun l l' hnd hp => foldl_applyAM_perm l l' hnd hp none⟩
  simp only [applyAM, if_neg (by omega : ¬ cur.resourceVersion ≤ e.resourceVersion)]

/-- Witness for C1 at concrete inputs: a two-event history starting from an
empty cell, a stale event against a newer stored snapshot, and the two
orders of a two-event multiset with distinct versions. -/
theorem c1_witness :
    storedVer (none : Option ObjSnapshot) ≤
        storedVer (List.foldl applyAM none [⟨1, 3⟩, ⟨2, 5⟩])
    ∧ applyAM (some ⟨5, 7⟩) ⟨4, 9⟩ = some ⟨5, 7⟩
    ∧ List.foldl applyAM none [⟨1, 3⟩, ⟨2, 5⟩] =
        List.foldl applyAM none [⟨2, 5⟩, ⟨1, 3⟩] :=
  ⟨c1_mirror_version_monotone_and_permutation_invariant.1 none [⟨1, 3⟩, ⟨2, 5⟩],
   c1_mirror_version_monotone_and_permutation_invariant.2.1 ⟨5, 7⟩ ⟨4, 9⟩ (by decide),
   c1_mirror_version_monotone_and_permutation_invariant.2.2
     [⟨1, 3⟩, ⟨2, 5⟩] [⟨2, 5⟩, ⟨1, 3⟩] (by decide) (by decide)⟩

/-- C8: Applying the same Added event (identical key, payload and resource
version) twice in succession is idempotent: the Mirror state after the second
application equals the state after the first. -/
theorem c8_added_event_idempotent :
    ∀ (m : Option ObjSnapshot) (e : ObjSnapshot),
      applyAM (applyAM m e) e = applyAM m e := by
  intro m e
  cases m with
  | none => simp [applyAM]
  | some cur =>
    by_cases h : cur.resourceVersion ≤ e.resourceVersion <;> simp [applyAM, h]

/-- C2: For every namespace, name and requested replica count strictly less
than zero, POST /replica-count answers with a client input error (HTTP 400)
and performs zero UpdateScale calls against the Remote Object Store. -/
theorem c2_negative_count_client_error_no_write :
    ∀ (mirror : List Deployment) (ns name : String) (c : Int)
      (store : String → String → Int → UpdateScaleResult),
      c < 0 →
      (∃ e, (postStep mirror ns name (some c) store).1 = .err e ∧ e.code = 400)
      ∧ (postStep mirror ns name (some c) store).2.1 = [] := by
  intro mirror ns name c store hc
  by_cases h : ns = "" ∨ name = ""
  · exact ⟨⟨⟨"Missing query parameters", 400⟩, by simp [postStep, handlePostReplicaCount, h], rfl⟩, by
      simp [postStep, handlePostReplicaCount, h]⟩
  · exact ⟨⟨⟨"Replica count must be non-negative", 400⟩, by
      simp [postStep, handlePostReplicaCount, h, hc], rfl⟩, by
      simp [postStep, handlePostReplicaCount, h, hc]⟩

/-- Witness for C2 at a concrete input: namespace `default`, deployment
`web`, requested count `-1`, against a store that would accept any write. -/
theorem c2_witness :
    (∃ e, (postStep [] "default" "web" (some (-1)) (fun _ _ _ => .ok)).1 = .err e
        ∧ e.code = 400)
    ∧ (postStep [] "default" "web" (some (-1)) (fun _ _ _ => .ok)).2.1 = [] :=
  c2_negative_count_client_error_no_write [] "default" "web" (-1)
    (fun _ _ _ => .ok) (by decide)

/-- C3: With well-formed parameters and a requested count N ≥ 0, the mutation
returns the success body carrying exactly N when the store's scale update
succeeds, returns the not-found error when the store reports not-found, and
in every case the Mirror component of the state is left untouched (the POST
path holds no reference to the informer cache). -/
theorem c3_mutation_outcomes_and_mirror_untouched :
    ∀ (mirror : List Deployment) (ns name : String) (c : Int)
      (store : String → String → Int → UpdateScaleResult),
      ns ≠ "" → name ≠ "" → 0 ≤ c →
      (store ns name c = .ok →
        (postStep mirror ns name (some c) store).1 = .ok c)
      ∧ (store ns name c = .err true →
        (postStep mirror ns name (some c) store).1 = .err ⟨"Deployment not found", 404⟩)
      ∧ (postStep mirror ns name (some c) store).2.2 = mirror := by
  intro mirror ns name c store hns hname hc
  refine ⟨fun hok => ?_, fun hnf => ?_, rfl⟩
  · simp [postStep, handlePostReplicaCount, hns, hname, not_lt.mpr hc, hok]
  · simp [postStep, handlePostReplicaCount, hns, hname, not_lt.mpr hc, hnf]

/-- Witness for C3 at a concrete input: key `default/web`, requested count 5,
against a store accepting the write, and another store reporting not-found. -/
theorem c3_witness :
    (postStep [⟨"default", "web", 3⟩] "default" "web" (some 5)
        (fun _ _ _ => .ok)).1 = .ok 5
    ∧ (postStep [⟨"default", "web", 3⟩] "default" "web" (some 5)
        (fun _ _ _ => .err true)).1 = .err ⟨"Deployment not found", 404⟩
    ∧ (postStep [⟨"default", "web", 3⟩] "default" "web" (some 5)
        (fun _ _ _ => .ok)).2.2 = [⟨"default", "web", 3⟩] :=
  ⟨(c3_mutation_outcomes_and_mirror_untouched [⟨"default", "web", 3⟩] "default" "web" 5
      (fun _ _ _ => .ok) (by decide) (by decide) (by decide)).1 rfl,
   (c3_mutation_outcomes_and_mirror_untouched [⟨"default", "web", 3⟩] "default" "web" 5
      (fun _ _ _ => .err true) (by decide) (by decide) (by decide)).2.1 rfl,
   (c3_mutation_outcomes_and_mirror_untouched [⟨"default", "web", 3⟩] "default" "web" 5
      (fun _ _ _ => .ok) (by decide) (by decide) (by decide)).2.2⟩

/-- C4: When the store fails the scale update with anything other than
not-found (conflict, authorization, unavailability, timeout — everything the
Go code's `errors.IsNotFound` test rejects), the mutation surfaces the single
generic write-failure result (HTTP 500), which is distinct from the
not-found result, and issues exactly one UpdateScale call (no retry). -/
theorem c4_generic_write_failure_single_call :
    ∀ (mirror : List Deployment) (ns name : String) (c : Int)
      (store : String → String → Int → UpdateScaleResult),
      ns ≠ "" → name ≠ "" → 0 ≤ c → store ns name c = .err false →
      (postStep mirror ns name (some c) store).1 =
          .err ⟨"Failed to update deployment scale", 500⟩
      ∧ (postStep mirror ns name (some c) store).1 ≠
          .err ⟨"Deployment not found", 404⟩
      ∧ (postStep mirror ns name (some c) store).2.1.length = 1 := by
  intro mirror ns name c store hns hname hc hfail
  refine ⟨?_, ?_, ?_⟩ <;>
    simp [postStep, handlePostReplicaCount, hns, hname, not_lt.mpr hc, hfail]

/-- Witness for C4 at a concrete input: key `default/web`, requested count 5,
against a store failing with a non-not-found error. -/
theorem c4_witness :
    (postStep [] "default" "web" (some 5) (fun _ _ _ => .err false)).1 =
        .err ⟨"Failed to update deployment scale", 500⟩
    ∧ (postStep [] "default" "web" (some 5) (fun _ _ _ => .err false)).1 ≠
        .err ⟨"Deployment not found", 404⟩
    ∧ (postStep [] "default" "web" (some 5) (fun _ _ _ => .err false)).2.1.length = 1 :=
  c4_generic_write_failure_single_call [] "default" "web" 5
    (fun _ _ _ => .err false) (by decide) (by decide) (by decide) rfl

/-- C9: POST /replica-count validation errors come in a fixed precedence
order, each producing no store write: missing query parameters win over
everything (the body is not consulted), then a body that fails to decode,
then a negative replica count; the store is invoked — exactly once, with the
request's namespace, name and count — only when all three checks pass. -/
theorem c9_validation_precedence :
    ∀ (ns name : String) (body : Option Int)
      (store : String → String → Int → UpdateScaleResult),
      ((ns = "" ∨ name = "") →
        handlePostReplicaCount ns name body store =
          (.err ⟨"Missing query parameters", 400⟩, []))
      ∧ (ns ≠ "" → name ≠ "" →
        handlePostReplicaCount ns name none store =
          (.err ⟨"Invalid request body", 400⟩, []))
      ∧ (∀ c : Int, ns ≠ "" → name ≠ "" → c < 0 →
        handlePostReplicaCount ns name (some c) store =
          (.err ⟨"Replica count must be non-negative", 400⟩, []))
      ∧ ((handlePostReplicaCount ns name body store).2 ≠ [] →
        ns ≠ "" ∧ name ≠ "" ∧ ∃ c : Int, body = some c ∧ 0 ≤ c ∧
          (handlePostReplicaCount ns name body store).2 = [⟨ns, name, c⟩]) := by
  intro ns name body store
  refine ⟨fun h => by simp [handlePostReplicaCount, h],
    fun hns hname => by simp [handlePostReplicaCount, hns, hname],
    fun c hns hname hc => by simp [handlePostReplicaCount, hns, hname, hc],
    fun hcalls => ?_⟩
  by_cases h : ns = "" ∨ name = ""
  · exact absurd (by simp [handlePostReplicaCount, h]) hcalls
  · push_neg at h
    cases body with
    | none => exact absurd (by simp [handlePostReplicaCount, h.1, h.2]) hcalls
    | some c =>
      by_cases hc : c < 0
      · exact absurd (by simp [handlePostReplicaCount, h.1, h.2, hc]) hcalls
      · refine ⟨h.1, h.2, c, rfl, not_lt.mp hc, ?_⟩
        cases hstore : store ns name c with
        | ok => simp [handlePostReplicaCount, h.1, h.2, hc, hstore]
        | err isNF =>
          cases isNF <;> simp [handlePostReplicaCount, h.1, h.2, hc, hstore]

/-- Witness for C9 at concrete inputs: a request missing its namespace, a
request whose body fails to decode, a negative count, and a passing request
whose single store call carries the request data. -/
theorem c9_witness :
    handlePostReplicaCount "" "web" (some 2) (fun _ _ _ => .ok) =
        (.err ⟨"Missing query parameters", 400⟩, [])
    ∧ handlePostReplicaCount "default" "web" none (fun _ _ _ => .ok) =
        (.err ⟨"Invalid request body", 400⟩, [])
    ∧ handlePostReplicaCount "default" "web" (some (-2)) (fun _ _ _ => .ok) =
        (.err ⟨"Replica count must be non-negative", 400⟩, [])
    ∧ ("default" ≠ "" ∧ "web" ≠ "" ∧ ∃ c : Int, (some (2 : Int)) = some c ∧ 0 ≤ c ∧
        (handlePostReplicaCount "default" "web" (some 2) (fun _ _ _ => .ok)).2 =
          [⟨"default", "web", c⟩]) :=
  ⟨(c9_validation_precedence "" "web" (some 2) (fun _ _ _ => .ok)).1 (Or.inl rfl),
   (c9_validation_precedence "default" "web" none (fun _ _ _ => .ok)).2.1
     (by decide) (by decide),
   (c9_validation_precedence "default" "web" (some (-2)) (fun _ _ _ => .ok)).2.2.1
     (-2) (by decide) (by decide) (by decide),
   (c9_validation_precedence "default" "web" (some 2) (fun _ _ _ => .ok)).2.2.2
     (by decide)⟩

/-- C5: The point lookup reports `found = false` exactly when no entry with
the key (namespace, name) is present in the Mirror; when the key is present
(keys being unique in the cache) it returns the stored object with
`found = true`; and its outcome is always one of these two shapes — no
synchronization error can reach the caller. -/
theorem c5_get_by_key_found_iff_present :
    ∀ (m : List Deployment) (ns name : String),
      ((getDeploymentFromCache ns name m).2 = false ↔
        ¬∃ d ∈ m, d.namespace' = ns ∧ d.name = name)
      ∧ (List.Pairwise keyNe m → ∀ d ∈ m, d.namespace' = ns → d.name = name →
        getDeploymentFromCache ns name m = (some d, true))
      ∧ (getDeploymentFromCache ns name m = (none, false)
        ∨ ∃ d, getDeploymentFromCache ns name m = (some d, true)) := by
  intro m ns name
  refine ⟨?_, fun hpw d hd hdns hdname => ?_, ?_⟩
  · cases h : listerGet m ns name with
    | none =>
      have h' := (listerGet_eq_none_iff m ns name).mp h
      simp only [getDeploymentFromCache, h]
      refine iff_of_true (by simp) ?_
      rintro ⟨d, hd, hp⟩
      exact h' d hd hp
    | some d =>
      obtain ⟨hdm, hd1, hd2⟩ := listerGet_some_spec h
      simp only [getDeploymentFromCache, h]
      exact iff_of_false (by simp) (fun hn => hn ⟨d, hdm, hd1, hd2⟩)
  · cases h : listerGet m ns name with
    | none =>
      rw [listerGet_eq_none_iff] at h
      exact absurd ⟨hdns, hdname⟩ (h d hd)
    | some d' =>
      obtain ⟨hd'm, hd'1, hd'2⟩ := listerGet_some_spec h
      have : d' = d := by
        by_contra hne
        exact List.Pairwise.forall (fun _ _ hsym => Ne.symm hsym) hpw hd'm hd hne
          (by simp [hd'1, hd'2, hdns, hdname])
      subst this
      simp [getDeploymentFromCache, h]
  · cases h : listerGet m ns name with
    | none => exact Or.inl (by simp [getDeploymentFromCache, h])
    | some d => exact Or.inr ⟨d, by simp [getDeploymentFromCache, h]⟩

/-- Witness for C5 at a concrete input: a one-entry cache in which the key
`default/web` is present and looked up. -/
theorem c5_witness :
    getDeploymentFromCache "default" "web" [⟨"default", "web", 3⟩] =
      (some ⟨"default", "web", 3⟩, true) :=
  (c5_get_by_key_found_iff_present [⟨"default", "web", 3⟩] "default" "web").2.1
    (by simp) ⟨"default", "web", 3⟩ (by simp) rfl rfl

/-- C10: GET /deployments returns one entry per cached deployment matching
the namespace filter (the empty filter selecting every namespace), each
formatted as the namespace and name joined by a single slash, and returns the
empty sequence — the `deployments` field is always present — when nothing
matches. -/
theorem c10_list_formats_matching_deployments :
    ∀ (m : List Deployment) (ns : String),
      ((listDeployments m ns).deployments =
        (m.filter (fun d => decide (ns = "" ∨ d.namespace' = ns))).map
          (fun d => d.namespace' ++ "/" ++ d.name))
      ∧ (∀ d ∈ m, (ns = "" ∨ d.namespace' = ns) →
          (d.namespace' ++ "/" ++ d.name) ∈ (listDeployments m ns).deployments)
      ∧ (∀ s ∈ (listDeployments m ns).deployments,
          ∃ d ∈ m, (ns = "" ∨ d.namespace' = ns) ∧ s = d.namespace' ++ "/" ++ d.name)
      ∧ ((∀ d ∈ m, ¬(ns = "" ∨ d.namespace' = ns)) →
          (listDeployments m ns).deployments = []) := by
  intro m ns
  have hmain : (listDeployments m ns).deployments =
      (m.filter (fun d => decide (ns = "" ∨ d.namespace' = ns))).map
        (fun d => d.namespace' ++ "/" ++ d.name) := by
    by_cases hns : ns = ""
    · subst hns; simp [listDeployments, listerList]
    · simp [listDeployments, listerList, hns]
  refine ⟨hmain, fun d hd hmatch => ?_, fun s hs => ?_, fun hnone => ?_⟩
  · rw [hmain]
    exact List.mem_map_of_mem _ (List.mem_filter.mpr ⟨hd, by simpa using hmatch⟩)
  · rw [hmain] at hs
    obtain ⟨d, hdf, rfl⟩ := List.mem_map.mp hs
    obtain ⟨hdm, hdp⟩ := List.mem_filter.mp hdf
    exact ⟨d, hdm, by simpa using hdp, rfl⟩
  · rw [hmain]
    have hfil : m.filter (fun d => decide (ns = "" ∨ d.namespace' = ns)) = [] := by
      rw [List.filter_eq_nil_iff]
      intro d hd
      simpa using hnone d hd
    rw [hfil]
    rfl

/-- Witness for C10 at concrete inputs: a two-namespace cache filtered by
`default`, and a one-entry cache filtered by a namespace with no entries. -/
theorem c10_witness :
    ("default" ++ "/" ++ "web") ∈
      (listDeployments [⟨"default", "web", 3⟩, ⟨"kube-system", "dns", 2⟩]
        "default").deployments
    ∧ (listDeployments [⟨"default", "web", 3⟩] "other").deployments = [] :=
  ⟨(c10_list_formats_matching_deployments
      [⟨"default", "web", 3⟩, ⟨"kube-system", "dns", 2⟩] "default").2.1
      ⟨"default", "web", 3⟩ (by simp) (Or.inr rfl),
   (c10_list_formats_matching_deployments [⟨"default", "web", 3⟩] "other").2.2.2
      (by decide)⟩

/-- Counterexample for C6: with the sync barrier completed (`synced = true`)
but the Kubernetes connectivity check failing, GET /healthz does not report
ready — readiness is not equivalent to the barrier having completed. -/
theorem c6_counterexample_ready_not_barrier :
    healthzReady true false ≠ true := by decide

/-- C6 (amended): GET /healthz reports ready exactly when the
`ServerVersion` connectivity check succeeds, independent of the sync-barrier
flag; no request (hence no ready report) is served before the informer cache
sync barrier has been passed, since `main` reaches the serving step only when
the sync succeeds. -/
theorem c6_health_reflects_connectivity :
    (∀ synced connOk : Bool, healthzReady synced connOk = connOk)
    ∧ (∀ configOk clientOk syncOk tlsOk : Bool,
        MainStep.serveRequests ∈ mainTrace configOk clientOk syncOk tlsOk →
          syncOk = true) := by
  exact ⟨by decide, by decide⟩

/-- Witness for C6 at a concrete input: healthz with a succeeding
connectivity check, and the fully successful startup trace. -/
theorem c6_witness :
    healthzReady true true = true ∧ (true : Bool) = true :=
  ⟨c6_health_reflects_connectivity.1 true true,
   c6_health_reflects_connectivity.2 true true true true (by decide)⟩

/-- C7: In every execution of `main`, serving requests is reached only when
the informer cache sync succeeded, and the sync barrier step strictly
precedes the serving step in the trace; when the initial sync cannot
complete, `main` terminates fatally (after a successful client setup, with
the informer-sync fatal message) and never serves. -/
theorem c7_serve_only_after_sync_barrier :
    ∀ (configOk clientOk syncOk tlsOk : Bool),
      (MainStep.serveRequests ∈ mainTrace configOk clientOk syncOk tlsOk →
        syncOk = true ∧
          precedesIn (mainTrace configOk clientOk syncOk tlsOk)
            MainStep.waitForCacheSync MainStep.serveRequests)
      ∧ (syncOk = false →
        MainStep.serveRequests ∉ mainTrace configOk clientOk syncOk tlsOk
        ∧ (configOk = true → clientOk = true →
            MainStep.fatalExit "Failed to sync deployment informer" ∈
              mainTrace configOk clientOk syncOk tlsOk)) := by
  decide

/-- Witness for C7 at concrete inputs: the fully successful startup trace,
and the trace in which the initial sync fails. -/
theorem c7_witness :
    (true = true ∧
      precedesIn (mainTrace true true true true)
        MainStep.waitForCacheSync MainStep.serveRequests)
    ∧ MainStep.serveRequests ∉ mainTrace true true false true :=
  ⟨(c7_serve_only_after_sync_barrier true true true true).1 (by decide),
   ((c7_serve_only_after_sync_barrier true true false true).2 rfl).1⟩

end Scaler
